import Mathlib

/-!
Verification of `wagtailmodeladmin/options.py`.

Shallow embedding of the configuration/registration layer: `ModelAdmin`,
`ModelAdminGroup`, the deprecated subclasses (`PageModelAdmin`,
`SnippetModelAdmin`, `AppModelAdmin`) and the getters and registration
methods they expose.

Modelling conventions, in correspondence with the Python source:
* A Django model class is a `ModelType`: its `_meta` options (app label,
  model name, verbose name) together with the two subclass tests the code
  performs (`issubclass(m, Model)` and `issubclass(m, Page)`).
* A `ModelAdmin` subclass declaration is a `ModelAdminClass` record of the
  overridable class attributes.  String attributes defaulting to `None` or
  empty in Python are modelled as `String` with `""` meaning unset: the code
  only ever tests them for truthiness, under which None and the empty string agree.
  `menu_order` defaults to `None` and the code distinguishes nothing between
  `None` and `0` (both falsy), but the claims do, so it is an `Option Int`.
* `ModelAdmin.__init__` either raises `ImproperlyConfigured` or produces a
  live instance; it is modelled as `Except String ModelAdminInstance`.
  The `parent` argument is stored by the code and never read by any
  behaviour modelled here, so it is omitted from the instance record.
* Warnings (`warnings.warn(...)`) are non-fatal; constructors of the
  deprecated classes return the list of warning messages emitted alongside
  the construction result.
* The database of permission rows and the snippet registry
  (`Permission.objects`, `SNIPPET_MODELS`) are an explicit environment
  record `DjangoEnv`; a queryset over the permission table is a
  `List Permission`.
-/

/-- A Django model class, as far as `options.py` inspects it: its `_meta`
options plus the two subclass tests the code performs. -/
structure ModelType where
  appLabel : String
  modelName : String
  verboseNamePlural : String
  isModelSubclass : Bool
  isPageSubclass : Bool
deriving DecidableEq, Repr

/-- The overridable class attributes of a `ModelAdmin` subclass (the ones
read by the behaviour modelled here).  `""` models an unset string
attribute (None or empty, identical under Python truthiness). -/
structure ModelAdminClass where
  model : Option ModelType
  menu_label : String
  menu_icon : String
  menu_order : Option Int
  index_template_name : String
  create_template_name : String
  edit_template_name : String
  confirm_delete_template_name : String
  choose_parent_template_name : String
deriving DecidableEq, Repr

/-- Which permission helper `__init__` selected
(`PagePermissionHelper` vs `PermissionHelper`). -/
inductive PermissionHelperKind where
  | pageHelper
  | genericHelper
deriving DecidableEq, Repr

/-- A successfully constructed `ModelAdmin` instance: the class attributes,
`self.opts = self.model._meta` (here the model itself), the derived
`is_pagemodel` flag and the selected permission helper. -/
structure ModelAdminInstance where
  cls : ModelAdminClass
  model : ModelType
  is_pagemodel : Bool
  permission_helper : PermissionHelperKind
deriving DecidableEq, Repr

namespace ModelAdmin

/-- Embeds `ModelAdmin.__init__`: raises `ImproperlyConfigured` unless `self.model`
is set and is a subclass of `Model`; otherwise derives `opts`,
`is_pagemodel` and the permission helper. -/
def init (c : ModelAdminClass) : Except String ModelAdminInstance :=
  match c.model with
  | none => Except.error "ImproperlyConfigured"
  | some m =>
    if m.isModelSubclass then
      Except.ok
        { cls := c
          model := m
          is_pagemodel := m.isPageSubclass
          permission_helper :=
            if m.isPageSubclass then PermissionHelperKind.pageHelper
            else PermissionHelperKind.genericHelper }
    else Except.error "ImproperlyConfigured"

/-- Python `str.title()` restricted to what the code applies it to:
each maximal run of letters is capitalised on its first letter with the
rest lowercased. -/
def pyTitleGo : Bool → List Char → List Char
  | _, [] => []
  | prevAlpha, ch :: rest =>
    if ch.isAlpha then
      (if prevAlpha then ch.toLower else ch.toUpper) :: pyTitleGo true rest
    else
      ch :: pyTitleGo false rest

/-- Embeds `s.title()` on a string. -/
def pyTitle (s : String) : String :=
  String.mk (pyTitleGo false s.data)

/-- Embeds `get_menu_label`: the `menu_label` attribute if truthy, else
`self.opts.verbose_name_plural.title()`. -/
def get_menu_label (a : ModelAdminInstance) : String :=
  if a.cls.menu_label ≠ "" then a.cls.menu_label
  else pyTitle a.model.verboseNamePlural

/-- Embeds `get_menu_icon`: the `menu_icon` attribute if truthy, else
`doc-full-inverse` for page models and `snippet` otherwise. -/
def get_menu_icon (a : ModelAdminInstance) : String :=
  if a.cls.menu_icon ≠ "" then a.cls.menu_icon
  else if a.is_pagemodel then "doc-full-inverse"
  else "snippet"

/-- Embeds `get_menu_order`: `self.menu_order or 999`.  Under Python truthiness an
unset (`None`) and a zero `menu_order` both fall through to `999`. -/
def get_menu_order (a : ModelAdminInstance) : Int :=
  match a.cls.menu_order with
  | some n => if n = 0 then 999 else n
  | none => 999

end ModelAdmin

/-- A row of the Django permission table, keyed by its content type
(app label + model name) and codename. -/
structure Permission where
  app_label : String
  model : String
  codename : String
deriving DecidableEq, Repr

/-- The external Django/Wagtail state the registration methods read:
the permission table (`Permission.objects`) and the snippet registry
(`wagtail.wagtailsnippets.models.SNIPPET_MODELS`). -/
structure DjangoEnv where
  permissions : List Permission
  snippet_models : List ModelType
deriving Repr

/-- Embeds `Permission.objects.filter(content_type__app_label=..., content_type__model=...)`
evaluated against the table. -/
def permissionFilter (env : DjangoEnv) (appLabel modelName : String) : List Permission :=
  env.permissions.filter
    (fun p => p.app_label = appLabel ∧ p.model = modelName)

/-- Django queryset combination `qs1 | qs2` on filters of the permission
table: the rows of either operand, each row listed once. -/
def qsUnion (a b : List Permission) : List Permission :=
  a ++ b.filter (fun p => ¬ p ∈ a)

/-- Modelled from the spec: `get_url_name` lives in `utils.py`, which is
missing from `src/`.  Symbolic route names have the form
`<app>_<model>_modeladmin_<action>`. -/
def get_url_name (opts : ModelType) (action : String) : String :=
  opts.appLabel ++ "_" ++ opts.modelName ++ "_modeladmin_" ++ action

/-- Modelled from the spec: `get_url_pattern` lives in `utils.py`, which is
missing from `src/`.  Routes follow `<app>/<model>/[<action>/]`; `none`
is the index route, which has no action segment. -/
def get_url_pattern (opts : ModelType) (action : Option String) : String :=
  match action with
  | none => opts.appLabel ++ "/" ++ opts.modelName ++ "/"
  | some act => opts.appLabel ++ "/" ++ opts.modelName ++ "/" ++ act ++ "/"

/-- Modelled from the spec: `get_object_specific_url_pattern` lives in
`utils.py`, which is missing from `src/`.  Object-specific routes follow
`<app>/<model>/<action>/<id>/`, the id segment captured by the route. -/
def get_object_specific_url_pattern (opts : ModelType) (action : String) : String :=
  opts.appLabel ++ "/" ++ opts.modelName ++ "/" ++ action ++ "/<id>/"

/-- The view dispatch method a route is wired to. -/
inductive ViewHandler where
  | index
  | create
  | choose_parent
  | edit
  | confirm_delete
  | unpublish
  | copy
deriving DecidableEq, Repr

/-- One `url(pattern, handler, name=...)` registration entry. -/
structure URLEntry where
  pattern : String
  handler : ViewHandler
  name : String
deriving DecidableEq, Repr

namespace ModelAdmin

/-- Embeds `get_templates(action)`: the three-tier fallback list of template
candidates for an action. -/
def get_templates (a : ModelAdminInstance) (action : String) : List String :=
  let app := a.model.appLabel
  let model_name := a.model.modelName
  [ "wagtailmodeladmin/" ++ app ++ "/" ++ model_name ++ "/" ++ action ++ ".html",
    "wagtailmodeladmin/" ++ app ++ "/" ++ action ++ ".html",
    "wagtailmodeladmin/" ++ action ++ ".html" ]

/-- Embeds `get_index_template`: the `index_template_name` override if truthy,
else the fallback list.  Python returns either a single template name or
a list, modelled as a `Sum`. -/
def get_index_template (a : ModelAdminInstance) : Sum String (List String) :=
  if a.cls.index_template_name ≠ "" then Sum.inl a.cls.index_template_name
  else Sum.inr (get_templates a "index")

/-- Embeds `get_choose_parent_template`. -/
def get_choose_parent_template (a : ModelAdminInstance) : Sum String (List String) :=
  if a.cls.choose_parent_template_name ≠ "" then
    Sum.inl a.cls.choose_parent_template_name
  else Sum.inr (get_templates a "choose_parent")

/-- Embeds `get_create_template`. -/
def get_create_template (a : ModelAdminInstance) : Sum String (List String) :=
  if a.cls.create_template_name ≠ "" then Sum.inl a.cls.create_template_name
  else Sum.inr (get_templates a "create")

/-- Embeds `get_edit_template`. -/
def get_edit_template (a : ModelAdminInstance) : Sum String (List String) :=
  if a.cls.edit_template_name ≠ "" then Sum.inl a.cls.edit_template_name
  else Sum.inr (get_templates a "edit")

/-- Embeds `get_confirm_delete_template`. -/
def get_confirm_delete_template (a : ModelAdminInstance) : Sum String (List String) :=
  if a.cls.confirm_delete_template_name ≠ "" then
    Sum.inl a.cls.confirm_delete_template_name
  else Sum.inr (get_templates a "confirm_delete")

/-- Embeds `get_permissions_for_registration`: nothing for page models or models
already registered as snippets; otherwise the permission rows whose
content type matches the model. -/
def get_permissions_for_registration (env : DjangoEnv) (a : ModelAdminInstance) :
    List Permission :=
  if ¬ a.is_pagemodel = true ∧ ¬ a.model ∈ env.snippet_models then
    permissionFilter env a.model.appLabel a.model.modelName
  else []

/-- Embeds `get_admin_urls_for_registration`: the seven routes (index, create,
choose_parent, edit, confirm_delete, unpublish, copy). -/
def get_admin_urls_for_registration (a : ModelAdminInstance) : List URLEntry :=
  [ { pattern := get_url_pattern a.model none
      handler := ViewHandler.index
      name := get_url_name a.model "index" },
    { pattern := get_url_pattern a.model (some "create")
      handler := ViewHandler.create
      name := get_url_name a.model "create" },
    { pattern := get_url_pattern a.model (some "choose_parent")
      handler := ViewHandler.choose_parent
      name := get_url_name a.model "choose_parent" },
    { pattern := get_object_specific_url_pattern a.model "edit"
      handler := ViewHandler.edit
      name := get_url_name a.model "edit" },
    { pattern := get_object_specific_url_pattern a.model "confirm_delete"
      handler := ViewHandler.confirm_delete
      name := get_url_name a.model "confirm_delete" },
    { pattern := get_object_specific_url_pattern a.model "unpublish"
      handler := ViewHandler.unpublish
      name := get_url_name a.model "unpublish" },
    { pattern := get_object_specific_url_pattern a.model "copy"
      handler := ViewHandler.copy
      name := get_url_name a.model "copy" } ]

end ModelAdmin

/-- Modelled from the spec: `ModelAdminMenuItem` lives in `menus.py`, which
is missing from `src/`.  A menu item is a read-only view over a
configuration object plus the order it was given. -/
structure ModelAdminMenuItem where
  admin : ModelAdminInstance
  order : Int
deriving DecidableEq, Repr

/-- Modelled from the spec: `SubMenu` lives in `menus.py`, which is missing
from `src/`.  It wraps an ordered list of menu items. -/
structure SubMenu where
  menu_items : List ModelAdminMenuItem
deriving DecidableEq, Repr

namespace ModelAdmin

/-- Embeds `get_menu_item(order=None)`: builds
`ModelAdminMenuItem(self, order or self.get_menu_order())`.  Under Python
truthiness a `None` or zero `order` argument falls back to
`get_menu_order()`. -/
def get_menu_item (a : ModelAdminInstance) (order : Option Int) : ModelAdminMenuItem :=
  { admin := a
    order :=
      match order with
      | some o => if o = 0 then get_menu_order a else o
      | none => get_menu_order a }

end ModelAdmin

/-- The overridable class attributes of a `ModelAdminGroup` subclass:
the child `ModelAdmin` classes in `items` plus menu overrides. -/
structure ModelAdminGroupClass where
  items : List ModelAdminClass
  menu_label : String
  menu_icon : String
  menu_order : Option Int
deriving DecidableEq, Repr

/-- A successfully constructed `ModelAdminGroup`: the class attributes and
the `modeladmin_instances` list built by `__init__`. -/
structure ModelAdminGroupInstance where
  cls : ModelAdminGroupClass
  modeladmin_instances : List ModelAdminInstance
deriving DecidableEq, Repr

/-- Modelled from the spec: `GroupMenuItem` lives in `menus.py`, which is
missing from `src/`.  It wraps the group configuration, the order, and the
generated submenu. -/
structure GroupMenuItem where
  group : ModelAdminGroupInstance
  order : Int
  submenu : SubMenu
deriving DecidableEq, Repr

namespace ModelAdminGroup

/-- Embeds `ModelAdminGroup.__init__`: instantiate every class in `items`, in
order, each with this group as parent; any `ImproperlyConfigured` raised
by a child propagates. -/
def init (c : ModelAdminGroupClass) : Except String ModelAdminGroupInstance := do
  let insts ← c.items.mapM ModelAdmin.init
  return { cls := c, modeladmin_instances := insts }

/-- Embeds `get_app_label_from_subitems`: the app label of the first child,
title-cased; the empty string for an empty group. -/
def get_app_label_from_subitems (g : ModelAdminGroupInstance) : String :=
  match g.modeladmin_instances with
  | [] => ""
  | instance_ :: _ => ModelAdmin.pyTitle instance_.model.appLabel

/-- Embeds `get_menu_label`: the `menu_label` attribute if truthy, else the label
derived from the first child. -/
def get_menu_label (g : ModelAdminGroupInstance) : String :=
  if g.cls.menu_label ≠ "" then g.cls.menu_label
  else get_app_label_from_subitems g

/-- Embeds `get_menu_icon`: the `menu_icon` attribute if truthy, else
`icon-folder-open-inverse` (note: unlike the `ModelAdmin` defaults, this
already carries the `icon-` prefix). -/
def get_menu_icon (g : ModelAdminGroupInstance) : String :=
  if g.cls.menu_icon ≠ "" then g.cls.menu_icon
  else "icon-folder-open-inverse"

/-- Embeds `get_menu_order`: `self.menu_order or 999`, as for `ModelAdmin`. -/
def get_menu_order (g : ModelAdminGroupInstance) : Int :=
  match g.cls.menu_order with
  | some n => if n = 0 then 999 else n
  | none => 999

/-- The loop body of `get_menu_item`: walk the children with a counter
`item_order` that is incremented before each use, so the first child gets
order `1`. -/
def buildSubmenuItems : List ModelAdminInstance → Int → List ModelAdminMenuItem
  | [], _ => []
  | m :: rest, item_order =>
    ModelAdmin.get_menu_item m (some (item_order + 1)) ::
      buildSubmenuItems rest (item_order + 1)

/-- Embeds `get_menu_item`: for a group with at least one child, one menu item per
child with sequential 1-based orders, wrapped in a `SubMenu` under a single
`GroupMenuItem`; for an empty group, `None`. -/
def get_menu_item (g : ModelAdminGroupInstance) : Option GroupMenuItem :=
  if g.modeladmin_instances ≠ [] then
    some
      { group := g
        order := get_menu_order g
        submenu := { menu_items := buildSubmenuItems g.modeladmin_instances 0 } }
  else none

/-- Embeds `get_permissions_for_registration`: start from `Permission.objects.none()`
and `|`-combine the result of each child, in child order. -/
def get_permissions_for_registration (env : DjangoEnv) (g : ModelAdminGroupInstance) :
    List Permission :=
  g.modeladmin_instances.foldl
    (fun qs instance_ =>
      qsUnion qs (ModelAdmin.get_permissions_for_registration env instance_))
    []

/-- Embeds `get_admin_urls_for_registration`: extend an accumulator with each
routes of each child, in child order. -/
def get_admin_urls_for_registration (g : ModelAdminGroupInstance) : List URLEntry :=
  g.modeladmin_instances.foldl
    (fun urls instance_ => urls ++ ModelAdmin.get_admin_urls_for_registration instance_)
    []

end ModelAdminGroup

/-- Embeds `PageModelAdmin.__init__`: emit a deprecation warning, then behave as
`ModelAdmin.__init__`. -/
def PageModelAdmin.init (c : ModelAdminClass) :
    List String × Except String ModelAdminInstance :=
  (["PageModelAdmin is deprecated; extend ModelAdmin instead"],
   ModelAdmin.init c)

/-- Embeds `SnippetModelAdmin.__init__`: emit a deprecation warning, then behave
as `ModelAdmin.__init__`. -/
def SnippetModelAdmin.init (c : ModelAdminClass) :
    List String × Except String ModelAdminInstance :=
  (["SnippetModelAdmin is deprecated; extend ModelAdmin instead"],
   ModelAdmin.init c)

/-- The overridable class attributes of a deprecated `AppModelAdmin`
subclass. -/
structure AppModelAdminClass where
  pagemodeladmins : List ModelAdminClass
  snippetmodeladmins : List ModelAdminClass
  menu_label : String
  menu_icon : String
  menu_order : Option Int
deriving DecidableEq, Repr

/-- Embeds `AppModelAdmin.__init__`: emit a deprecation warning, set
`self.items = self.pagemodeladmins + self.snippetmodeladmins`, then behave
as `ModelAdminGroup.__init__`. -/
def AppModelAdmin.init (c : AppModelAdminClass) :
    List String × Except String ModelAdminGroupInstance :=
  (["AppModelAdmin is deprecated; use ModelAdminGroup instead"],
   ModelAdminGroup.init
     { items := c.pagemodeladmins ++ c.snippetmodeladmins
       menu_label := c.menu_label
       menu_icon := c.menu_icon
       menu_order := c.menu_order })

/-- Modelled from the spec: the host framework aggregates registered menu
entries by sorting on the order value (`options.py` only supplies
`get_menu_order`); lower values must come first.  The aggregation is a
stable sort of the registered instances by `get_menu_order`. -/
def aggregate_by_menu_order (l : List ModelAdminInstance) : List ModelAdminInstance :=
  l.insertionSort
    (fun a b => ModelAdmin.get_menu_order a ≤ ModelAdmin.get_menu_order b)

/-! Concrete fixtures used by witnesses and counterexamples. -/

/-- A plain non-page model. -/
def bookModel : ModelType :=
  { appLabel := "books", modelName := "book", verboseNamePlural := "books",
    isModelSubclass := true, isPageSubclass := false }

/-- A page model (`issubclass(m, Page)` holds). -/
def eventPageModel : ModelType :=
  { appLabel := "events", modelName := "eventpage",
    verboseNamePlural := "event pages",
    isModelSubclass := true, isPageSubclass := true }

/-- A `ModelAdmin` subclass that overrides nothing but `model`. -/
def plainClass (m : Option ModelType) : ModelAdminClass :=
  { model := m, menu_label := "", menu_icon := "", menu_order := none,
    index_template_name := "", create_template_name := "",
    edit_template_name := "", confirm_delete_template_name := "",
    choose_parent_template_name := "" }

/-- The instance built for `plainClass (some bookModel)`. -/
def bookAdmin : ModelAdminInstance :=
  { cls := plainClass (some bookModel), model := bookModel,
    is_pagemodel := false,
    permission_helper := PermissionHelperKind.genericHelper }

/-- The instance built for `plainClass (some eventPageModel)`. -/
def eventPageAdmin : ModelAdminInstance :=
  { cls := plainClass (some eventPageModel), model := eventPageModel,
    is_pagemodel := true,
    permission_helper := PermissionHelperKind.pageHelper }

/-- A subclass declaring `menu_order = 0`. -/
def zeroOrderClass : ModelAdminClass :=
  { plainClass (some bookModel) with menu_order := some 0 }

/-- The instance built for `zeroOrderClass`. -/
def zeroOrderAdmin : ModelAdminInstance :=
  { bookAdmin with cls := zeroOrderClass }

/-- An instance whose subclass declares `menu_order = 5`. -/
def fiveOrderAdmin : ModelAdminInstance :=
  { bookAdmin with cls := { plainClass (some bookModel) with menu_order := some 5 } }

/-- A group with no children. -/
def emptyGroup : ModelAdminGroupInstance :=
  { cls := { items := [], menu_label := "", menu_icon := "", menu_order := none },
    modeladmin_instances := [] }

/-- A group holding three children. -/
def groupABC : ModelAdminGroupInstance :=
  { cls := { items := [plainClass (some bookModel),
                       plainClass (some eventPageModel),
                       { plainClass (some bookModel) with menu_order := some 5 }],
             menu_label := "", menu_icon := "", menu_order := none },
    modeladmin_instances := [bookAdmin, eventPageAdmin, fiveOrderAdmin] }

/-- A permission row matching `bookModel`. -/
def permAddBook : Permission :=
  { app_label := "books", model := "book", codename := "add_book" }

/-- A permission row matching nothing registered here. -/
def permOther : Permission :=
  { app_label := "zoo", model := "animal", codename := "feed_animal" }

/-- A two-row permission table with an empty snippet registry. -/
def env0 : DjangoEnv :=
  { permissions := [permAddBook, permOther], snippet_models := [] }

/-! Theorems settling the claims. -/

/-- C1: for every `ModelAdmin` subclass (including the deprecated
`PageModelAdmin` and `SnippetModelAdmin`), construction raises
`ImproperlyConfigured` exactly when `model` is unset or not a subclass of
the Django `Model` class; with a valid model, construction succeeds. -/
theorem C1_construction_validates_model (c : ModelAdminClass) :
    (ModelAdmin.init c = Except.error "ImproperlyConfigured" ↔
      (c.model = none ∨
        ∃ m, c.model = some m ∧ m.isModelSubclass = false)) ∧
    ((∃ a, ModelAdmin.init c = Except.ok a) ↔
      (∃ m, c.model = some m ∧ m.isModelSubclass = true)) ∧
    (PageModelAdmin.init c).2 = ModelAdmin.init c ∧
    (SnippetModelAdmin.init c).2 = ModelAdmin.init c := by
  refine ⟨?_, ?_, rfl, rfl⟩ <;>
    · rcases hm : c.model with - | m
      · simp [ModelAdmin.init, hm]
      · cases hs : m.isModelSubclass <;> simp [ModelAdmin.init, hm, hs]

/-- C7: a `ModelAdminGroup` with zero children registers no menu item. -/
theorem C7_empty_group_no_menu_item (g : ModelAdminGroupInstance)
    (h : g.modeladmin_instances = []) :
    ModelAdminGroup.get_menu_item g = none := by
  simp [ModelAdminGroup.get_menu_item, h]

/-- C7 witness: the concrete empty group registers no menu item. -/
theorem C7_empty_group_no_menu_item_witness :
    emptyGroup.modeladmin_instances = [] ∧
    ModelAdminGroup.get_menu_item emptyGroup = none :=
  ⟨rfl, C7_empty_group_no_menu_item emptyGroup rfl⟩

/-- C10: with `menu_icon` unset, `ModelAdmin.get_menu_icon` defaults to the
bare names `doc-full-inverse` (page models) and `snippet` (others), while
`ModelAdminGroup.get_menu_icon` defaults to `icon-folder-open-inverse`,
which already carries the `icon-` prefix the other two lack. -/
theorem C10_default_menu_icons (a : ModelAdminInstance)
    (g : ModelAdminGroupInstance) :
    (a.cls.menu_icon = "" → a.is_pagemodel = true →
      ModelAdmin.get_menu_icon a = "doc-full-inverse") ∧
    (a.cls.menu_icon = "" → a.is_pagemodel = false →
      ModelAdmin.get_menu_icon a = "snippet") ∧
    (g.cls.menu_icon = "" →
      ModelAdminGroup.get_menu_icon g = "icon-folder-open-inverse") ∧
    "icon-folder-open-inverse".take 5 = "icon-" ∧
    "doc-full-inverse".take 5 ≠ "icon-" ∧
    "snippet".take 5 ≠ "icon-" := by
  refine ⟨?_, ?_, ?_, by decide, by decide, by decide⟩ <;>
    intro h1 <;>
      first
        | (intro h2; simp [ModelAdmin.get_menu_icon, h1, h2])
        | simp [ModelAdminGroup.get_menu_icon, h1]

/-- C10 witness: the defaults evaluated on concrete page, non-page and
group fixtures. -/
theorem C10_default_menu_icons_witness :
    ModelAdmin.get_menu_icon eventPageAdmin = "doc-full-inverse" ∧
    ModelAdmin.get_menu_icon bookAdmin = "snippet" ∧
    ModelAdminGroup.get_menu_icon emptyGroup = "icon-folder-open-inverse" :=
  ⟨(C10_default_menu_icons eventPageAdmin emptyGroup).1 rfl rfl,
   (C10_default_menu_icons bookAdmin emptyGroup).2.1 rfl rfl,
   (C10_default_menu_icons bookAdmin emptyGroup).2.2.1 rfl⟩

/-- C2 counterexample: `menu_order = 0` is a set integer value, yet
`get_menu_order()` returns `999`, not the declared `0`: `self.menu_order
or 999` treats `0` as falsy.  Construction of the instance succeeds, so
the configuration is reachable. -/
theorem C2_counterexample_menu_order_zero :
    ModelAdmin.init zeroOrderClass = Except.ok zeroOrderAdmin ∧
    zeroOrderAdmin.cls.menu_order = some 0 ∧
    ModelAdmin.get_menu_order zeroOrderAdmin = 999 ∧
    (999 : Int) ≠ 0 := by
  refine ⟨?_, rfl, rfl, by decide⟩
  rfl

/-- C2 amended: `get_menu_order()` returns the declared `menu_order` when
it is set to a nonzero value, and `999` when it is unset or set to `0`
(both falsy in Python); for both `ModelAdmin` and `ModelAdminGroup`.  When
instances are aggregated by menu order, the result is a permutation of the
input in which lower returned values come before higher ones. -/
theorem C2_menu_order_amended (a : ModelAdminInstance)
    (g : ModelAdminGroupInstance) (n : Int) (l : List ModelAdminInstance) :
    (a.cls.menu_order = none → ModelAdmin.get_menu_order a = 999) ∧
    (a.cls.menu_order = some 0 → ModelAdmin.get_menu_order a = 999) ∧
    (a.cls.menu_order = some n → n ≠ 0 → ModelAdmin.get_menu_order a = n) ∧
    (g.cls.menu_order = none → ModelAdminGroup.get_menu_order g = 999) ∧
    (g.cls.menu_order = some 0 → ModelAdminGroup.get_menu_order g = 999) ∧
    (g.cls.menu_order = some n → n ≠ 0 →
      ModelAdminGroup.get_menu_order g = n) ∧
    (aggregate_by_menu_order l).Perm l ∧
    (aggregate_by_menu_order l).Pairwise
      (fun x y => ModelAdmin.get_menu_order x ≤ ModelAdmin.get_menu_order y) := by
  haveI : IsTotal ModelAdminInstance
      (fun x y => ModelAdmin.get_menu_order x ≤ ModelAdmin.get_menu_order y) :=
    ⟨fun x y => le_total _ _⟩
  haveI : IsTrans ModelAdminInstance
      (fun x y => ModelAdmin.get_menu_order x ≤ ModelAdmin.get_menu_order y) :=
    ⟨fun x y z hxy hyz => le_trans hxy hyz⟩
  refine ⟨?_, ?_, ?_, ?_, ?_, ?_,
    List.perm_insertionSort _ l, List.sorted_insertionSort _ l⟩
  · intro h; simp [ModelAdmin.get_menu_order, h]
  · intro h; simp [ModelAdmin.get_menu_order, h]
  · intro h hn; simp [ModelAdmin.get_menu_order, h, hn]
  · intro h; simp [ModelAdminGroup.get_menu_order, h]
  · intro h; simp [ModelAdminGroup.get_menu_order, h]
  · intro h hn; simp [ModelAdminGroup.get_menu_order, h, hn]

/-- C2 witness: the amended menu-order behaviour evaluated on concrete
fixtures: unset gives 999, a declared 5 gives 5, an unset group gives
999. -/
theorem C2_menu_order_amended_witness :
    ModelAdmin.get_menu_order bookAdmin = 999 ∧
    ModelAdmin.get_menu_order fiveOrderAdmin = 5 ∧
    ModelAdminGroup.get_menu_order emptyGroup = 999 :=
  ⟨(C2_menu_order_amended bookAdmin emptyGroup 5 []).1 rfl,
   (C2_menu_order_amended fiveOrderAdmin emptyGroup 5 []).2.2.1 rfl (by decide),
   (C2_menu_order_amended bookAdmin emptyGroup 5 []).2.2.2.1 rfl⟩

/-- Appending to a common left part is cancellative on strings. -/
theorem string_append_left_cancel {s a b : String} (h : s ++ a = s ++ b) :
    a = b := by
  have hd := congrArg String.data h
  simp only [String.data_append] at hd
  exact String.ext (List.append_cancel_left hd)

/-- C3: URL registration yields exactly seven routes — index, create,
choose_parent, edit, confirm_delete, unpublish, copy, in that order — whose
symbolic names are the deterministic images
`<app>_<model>_modeladmin_<action>` of the action suffixes, and are
pairwise distinct. -/
theorem C3_admin_urls_seven_distinct_names (a : ModelAdminInstance) :
    (ModelAdmin.get_admin_urls_for_registration a).length = 7 ∧
    (ModelAdmin.get_admin_urls_for_registration a).map URLEntry.handler =
      [ViewHandler.index, ViewHandler.create, ViewHandler.choose_parent,
        ViewHandler.edit, ViewHandler.confirm_delete, ViewHandler.unpublish,
        ViewHandler.copy] ∧
    (ModelAdmin.get_admin_urls_for_registration a).map URLEntry.name =
      ["index", "create", "choose_parent", "edit", "confirm_delete",
        "unpublish", "copy"].map
        (fun act => a.model.appLabel ++ "_" ++ a.model.modelName ++
          "_modeladmin_" ++ act) ∧
    ((ModelAdmin.get_admin_urls_for_registration a).map URLEntry.name).Nodup := by
  refine ⟨rfl, rfl, rfl, ?_⟩
  have hmap : (ModelAdmin.get_admin_urls_for_registration a).map URLEntry.name =
      ["index", "create", "choose_parent", "edit", "confirm_delete",
        "unpublish", "copy"].map
        (fun act => a.model.appLabel ++ "_" ++ a.model.modelName ++
          "_modeladmin_" ++ act) := rfl
  rw [hmap]
  refine List.Nodup.map ?_ (by decide)
  intro x y hxy
  exact string_append_left_cancel hxy

/-- C4: permission registration contributes nothing for a page-like or
snippet-registered model; otherwise its result holds exactly the rows of
the permission table whose content type matches the app label and
model name. -/
theorem C4_permissions_for_registration (env : DjangoEnv)
    (a : ModelAdminInstance) :
    (a.is_pagemodel = true ∨ a.model ∈ env.snippet_models →
      ModelAdmin.get_permissions_for_registration env a = []) ∧
    (a.is_pagemodel = false → a.model ∉ env.snippet_models →
      ∀ p, p ∈ ModelAdmin.get_permissions_for_registration env a ↔
        p ∈ env.permissions ∧ p.app_label = a.model.appLabel ∧
          p.model = a.model.modelName) := by
  constructor
  · intro h
    rcases h with h | h <;>
      simp [ModelAdmin.get_permissions_for_registration, h]
  · intro h1 h2 p
    simp [ModelAdmin.get_permissions_for_registration, h1, h2,
      permissionFilter, List.mem_filter, and_assoc]

/-- C4 witness: with a two-row table, the page-like fixture registers
nothing and the book fixture picks up exactly the matching row. -/
theorem C4_permissions_for_registration_witness :
    ModelAdmin.get_permissions_for_registration env0 eventPageAdmin = [] ∧
    (permAddBook ∈ ModelAdmin.get_permissions_for_registration env0 bookAdmin ↔
      permAddBook ∈ env0.permissions ∧
        permAddBook.app_label = bookAdmin.model.appLabel ∧
        permAddBook.model = bookAdmin.model.modelName) :=
  ⟨(C4_permissions_for_registration env0 eventPageAdmin).1 (Or.inl rfl),
   (C4_permissions_for_registration env0 bookAdmin).2 rfl (by decide) permAddBook⟩

/-- C5: each template getter returns its `<action>_template_name` override
when set, and otherwise the three-tier fallback list
`wagtailmodeladmin/<app>/<model>/<action>.html`,
`wagtailmodeladmin/<app>/<action>.html`,
`wagtailmodeladmin/<action>.html`, in that order. -/
theorem C5_template_resolution (a : ModelAdminInstance) :
    (a.cls.index_template_name ≠ "" →
      ModelAdmin.get_index_template a = Sum.inl a.cls.index_template_name) ∧
    (a.cls.index_template_name = "" →
      ModelAdmin.get_index_template a = Sum.inr
        [ "wagtailmodeladmin/" ++ a.model.appLabel ++ "/" ++
            a.model.modelName ++ "/index.html",
          "wagtailmodeladmin/" ++ a.model.appLabel ++ "/index.html",
          "wagtailmodeladmin/index.html" ]) ∧
    (a.cls.create_template_name ≠ "" →
      ModelAdmin.get_create_template a = Sum.inl a.cls.create_template_name) ∧
    (a.cls.create_template_name = "" →
      ModelAdmin.get_create_template a = Sum.inr
        [ "wagtailmodeladmin/" ++ a.model.appLabel ++ "/" ++
            a.model.modelName ++ "/create.html",
          "wagtailmodeladmin/" ++ a.model.appLabel ++ "/create.html",
          "wagtailmodeladmin/create.html" ]) ∧
    (a.cls.edit_template_name ≠ "" →
      ModelAdmin.get_edit_template a = Sum.inl a.cls.edit_template_name) ∧
    (a.cls.edit_template_name = "" →
      ModelAdmin.get_edit_template a = Sum.inr
        [ "wagtailmodeladmin/" ++ a.model.appLabel ++ "/" ++
            a.model.modelName ++ "/edit.html",
          "wagtailmodeladmin/" ++ a.model.appLabel ++ "/edit.html",
          "wagtailmodeladmin/edit.html" ]) ∧
    (a.cls.confirm_delete_template_name ≠ "" →
      ModelAdmin.get_confirm_delete_template a =
        Sum.inl a.cls.confirm_delete_template_name) ∧
    (a.cls.confirm_delete_template_name = "" →
      ModelAdmin.get_confirm_delete_template a = Sum.inr
        [ "wagtailmodeladmin/" ++ a.model.appLabel ++ "/" ++
            a.model.modelName ++ "/confirm_delete.html",
          "wagtailmodeladmin/" ++ a.model.appLabel ++ "/confirm_delete.html",
          "wagtailmodeladmin/confirm_delete.html" ]) ∧
    (a.cls.choose_parent_template_name ≠ "" →
      ModelAdmin.get_choose_parent_template a =
        Sum.inl a.cls.choose_parent_template_name) ∧
    (a.cls.choose_parent_template_name = "" →
      ModelAdmin.get_choose_parent_template a = Sum.inr
        [ "wagtailmodeladmin/" ++ a.model.appLabel ++ "/" ++
            a.model.modelName ++ "/choose_parent.html",
          "wagtailmodeladmin/" ++ a.model.appLabel ++ "/choose_parent.html",
          "wagtailmodeladmin/choose_parent.html" ]) := by
  refine ⟨?_, ?_, ?_, ?_, ?_, ?_, ?_, ?_, ?_, ?_⟩ <;> intro h
  · simp [ModelAdmin.get_index_template, h]
  · simp only [ModelAdmin.get_index_template, h, ne_eq, not_true_eq_false,
      if_false, ite_false, Sum.inr.injEq]
    simp only [ModelAdmin.get_templates, String.append_assoc]
    rfl
  · simp [ModelAdmin.get_create_template, h]
  · simp only [ModelAdmin.get_create_template, h, ne_eq, not_true_eq_false,
      if_false, ite_false, Sum.inr.injEq]
    simp only [ModelAdmin.get_templates, String.append_assoc]
    rfl
  · simp [ModelAdmin.get_edit_template, h]
  · simp only [ModelAdmin.get_edit_template, h, ne_eq, not_true_eq_false,
      if_false, ite_false, Sum.inr.injEq]
    simp only [ModelAdmin.get_templates, String.append_assoc]
    rfl
  · simp [ModelAdmin.get_confirm_delete_template, h]
  · simp only [ModelAdmin.get_confirm_delete_template, h, ne_eq,
      not_true_eq_false, if_false, ite_false, Sum.inr.injEq]
    simp only [ModelAdmin.get_templates, String.append_assoc]
    rfl
  · simp [ModelAdmin.get_choose_parent_template, h]
  · simp only [ModelAdmin.get_choose_parent_template, h, ne_eq,
      not_true_eq_false, if_false, ite_false, Sum.inr.injEq]
    simp only [ModelAdmin.get_templates, String.append_assoc]
    rfl

/-- C5 witness: the fallback list for the plain book fixture and the
override for a fixture that sets `index_template_name`. -/
theorem C5_template_resolution_witness :
    ModelAdmin.get_index_template bookAdmin = Sum.inr
      [ "wagtailmodeladmin/books/book/index.html",
        "wagtailmodeladmin/books/index.html",
        "wagtailmodeladmin/index.html" ] ∧
    ModelAdmin.get_edit_template
        { bookAdmin with
          cls := { plainClass (some bookModel) with
                   edit_template_name := "custom/edit.html" } } =
      Sum.inl "custom/edit.html" :=
  ⟨by
    have h := (C5_template_resolution bookAdmin).2.1 rfl
    simpa using h,
   (C5_template_resolution
      { bookAdmin with
        cls := { plainClass (some bookModel) with
                 edit_template_name := "custom/edit.html" } }).2.2.2.2.1
     (by decide)⟩

/-- The submenu loop, unrolled: starting the counter at `k`, the `i`-th
child receives order `k + i + 1`. -/
theorem buildSubmenuItems_eq_mapIdx (l : List ModelAdminInstance) (k : Int) :
    ModelAdminGroup.buildSubmenuItems l k =
      l.mapIdx (fun i m => ModelAdmin.get_menu_item m (some (k + (i : Int) + 1))) := by
  induction l generalizing k with
  | nil => simp [ModelAdminGroup.buildSubmenuItems]
  | cons m rest ih =>
    rw [ModelAdminGroup.buildSubmenuItems, List.mapIdx_cons, ih (k + 1)]
    congr 1
    · congr 2
      push_cast
      ring
    · congr 1
      funext i m2
      congr 2
      push_cast
      ring

/-- A menu item built with a positive explicit order carries exactly that
order. -/
theorem get_menu_item_order_pos (m : ModelAdminInstance) (o : Int)
    (ho : 0 < o) :
    (ModelAdmin.get_menu_item m (some o)).order = o := by
  simp [ModelAdmin.get_menu_item, Int.ne_of_gt ho]

/-- The submenu loop assigns orders `k + 1, k + 2, ...` to the children,
read off positionally. -/
theorem buildSubmenuItems_map_order (l : List ModelAdminInstance) (k : Int)
    (hk : 0 ≤ k) :
    (ModelAdminGroup.buildSubmenuItems l k).map ModelAdminMenuItem.order =
      (List.range l.length).map (fun (i : Nat) => k + (i : Int) + 1) := by
  induction l generalizing k with
  | nil => simp [ModelAdminGroup.buildSubmenuItems]
  | cons m rest ih =>
    rw [ModelAdminGroup.buildSubmenuItems, List.map_cons, ih (k + 1) (by omega),
      List.length_cons, List.range_succ_eq_map, List.map_cons, List.map_map]
    congr 1
    · rw [get_menu_item_order_pos m (k + 1) (by omega)]
      simp
    · congr 1
      funext i
      simp only [Function.comp_apply]
      push_cast
      ring

/-- C6: for a group with at least one child, `get_menu_item()` returns a
single top-level item for the group, wrapping a submenu whose entries are
the menu items of the children in declaration order, the `i`-th child
receiving the sequential 1-based order `i + 1`. -/
theorem C6_group_submenu_sequential_orders (g : ModelAdminGroupInstance)
    (h : g.modeladmin_instances ≠ []) :
    ∃ mi : GroupMenuItem,
      ModelAdminGroup.get_menu_item g = some mi ∧
      mi.group = g ∧
      mi.order = ModelAdminGroup.get_menu_order g ∧
      mi.submenu.menu_items =
        g.modeladmin_instances.mapIdx
          (fun i m => ModelAdmin.get_menu_item m (some ((i : Int) + 1))) ∧
      mi.submenu.menu_items.map ModelAdminMenuItem.order =
        (List.range g.modeladmin_instances.length).map
          (fun (i : Nat) => ((i : Int) + 1)) := by
  refine ⟨{ group := g, order := ModelAdminGroup.get_menu_order g,
            submenu := { menu_items :=
              ModelAdminGroup.buildSubmenuItems g.modeladmin_instances 0 } },
    ?_, rfl, rfl, ?_, ?_⟩
  · simp [ModelAdminGroup.get_menu_item, h]
  · have hb := buildSubmenuItems_eq_mapIdx g.modeladmin_instances 0
    simpa using hb
  · have hb := buildSubmenuItems_map_order g.modeladmin_instances 0 le_rfl
    simpa using hb

/-- C6 witness: the three-child fixture gets one group item whose submenu
orders are `1, 2, 3`. -/
theorem C6_group_submenu_sequential_orders_witness :
    ∃ mi : GroupMenuItem,
      ModelAdminGroup.get_menu_item groupABC = some mi ∧
      mi.group = groupABC ∧
      mi.order = ModelAdminGroup.get_menu_order groupABC ∧
      mi.submenu.menu_items =
        groupABC.modeladmin_instances.mapIdx
          (fun i m => ModelAdmin.get_menu_item m (some ((i : Int) + 1))) ∧
      mi.submenu.menu_items.map ModelAdminMenuItem.order =
        (List.range groupABC.modeladmin_instances.length).map
          (fun (i : Nat) => ((i : Int) + 1)) :=
  C6_group_submenu_sequential_orders groupABC (by decide)

/-- Membership in a queryset combination `qs1 | qs2`. -/
theorem mem_qsUnion {p : Permission} {a b : List Permission} :
    p ∈ qsUnion a b ↔ p ∈ a ∨ p ∈ b := by
  simp only [qsUnion, List.mem_append, List.mem_filter, decide_not]
  constructor
  · rintro (h | ⟨h, -⟩)
    · exact Or.inl h
    · exact Or.inr h
  · intro h
    by_cases ha : p ∈ a
    · exact Or.inl ha
    · rcases h with h | h
      · exact Or.inl h
      · exact Or.inr ⟨h, by simpa using ha⟩

/-- Membership in a left fold of queryset combinations. -/
theorem mem_foldl_qsUnion (f : ModelAdminInstance → List Permission)
    (l : List ModelAdminInstance) (acc : List Permission) (p : Permission) :
    p ∈ l.foldl (fun qs x => qsUnion qs (f x)) acc ↔
      p ∈ acc ∨ ∃ x ∈ l, p ∈ f x := by
  induction l generalizing acc with
  | nil => simp
  | cons x rest ih =>
    rw [List.foldl_cons, ih]
    simp only [mem_qsUnion, List.mem_cons]
    constructor
    · rintro ((h | h) | ⟨y, hy, hp⟩)
      · exact Or.inl h
      · exact Or.inr ⟨x, Or.inl rfl, h⟩
      · exact Or.inr ⟨y, Or.inr hy, hp⟩
    · rintro (h | ⟨y, (rfl | hy), hp⟩)
      · exact Or.inl (Or.inl h)
      · exact Or.inl (Or.inr hp)
      · exact Or.inr ⟨y, hy, hp⟩

/-- A left fold of list appends is the accumulator followed by the
flattened mapped results. -/
theorem foldl_append_eq_flatten (f : ModelAdminInstance → List URLEntry)
    (l : List ModelAdminInstance) (acc : List URLEntry) :
    l.foldl (fun urls x => urls ++ f x) acc = acc ++ (l.map f).flatten := by
  induction l generalizing acc with
  | nil => simp
  | cons x rest ih =>
    rw [List.foldl_cons, ih, List.map_cons, List.flatten_cons, List.append_assoc]

/-- C8: group permission registration is the set-union of the results of
the children, and group URL registration is the concatenation of the
results of the children, both in child-declaration order. -/
theorem C8_group_registration_aggregates (env : DjangoEnv)
    (g : ModelAdminGroupInstance) :
    (∀ p, p ∈ ModelAdminGroup.get_permissions_for_registration env g ↔
      ∃ a ∈ g.modeladmin_instances,
        p ∈ ModelAdmin.get_permissions_for_registration env a) ∧
    ModelAdminGroup.get_admin_urls_for_registration g =
      (g.modeladmin_instances.map
        ModelAdmin.get_admin_urls_for_registration).flatten := by
  constructor
  · intro p
    rw [ModelAdminGroup.get_permissions_for_registration,
      mem_foldl_qsUnion]
    simp
  · rw [ModelAdminGroup.get_admin_urls_for_registration,
      foldl_append_eq_flatten]
    simp

/-- C9: each deprecated constructor emits a non-fatal deprecation warning
and otherwise produces exactly the construction result of the current API:
`PageModelAdmin` and `SnippetModelAdmin` behave as `ModelAdmin` on the same
attributes, and `AppModelAdmin` behaves as a `ModelAdminGroup` whose
`items` is `pagemodeladmins` followed by `snippetmodeladmins`. -/
theorem C9_deprecated_api_equivalence (c : ModelAdminClass)
    (ac : AppModelAdminClass) :
    (PageModelAdmin.init c).2 = ModelAdmin.init c ∧
    (PageModelAdmin.init c).1 ≠ [] ∧
    (SnippetModelAdmin.init c).2 = ModelAdmin.init c ∧
    (SnippetModelAdmin.init c).1 ≠ [] ∧
    (AppModelAdmin.init ac).2 =
      ModelAdminGroup.init
        { items := ac.pagemodeladmins ++ ac.snippetmodeladmins,
          menu_label := ac.menu_label,
          menu_icon := ac.menu_icon,
          menu_order := ac.menu_order } ∧
    (AppModelAdmin.init ac).1 ≠ [] := by
  exact ⟨rfl, by simp [PageModelAdmin.init], rfl,
    by simp [SnippetModelAdmin.init], rfl, by simp [AppModelAdmin.init]⟩
